import Mathlib

/-
Verification of the BiblioControl library-management system
(`src/src/App.tsx`, `src/src/services/supabaseService.ts`, and the
local-storage service `src/unnamed/part_001`) against its specification.

Modelling conventions:
* ISO-8601 timestamp strings are modelled as milliseconds since the epoch
  (`Nat`); `parseISO`/`toISOString` is a bijective boundary modelled as the
  identity.  `addDays t 7` from date-fns adds exactly `7 * dayMs`.
* JavaScript strings are Lean `String`s.  `toLowerCase`/`trim` are modelled
  character-wise as `jsToLower`/`jsTrim`.
* `null` is `Option.none`; a JS value that may be a dropped (`undefined`)
  update key is wrapped in a further `Option`.
* Parsed JSON documents are values of the `Json` inductive; JS truthiness
  of such a value is `jsTruthy`.
* Remote calls are modelled by explicit effect parameters (server-assigned
  identities, the clock, and per-call failure flags).
-/

/-- Model of JavaScript `String.prototype.toLowerCase` (character-wise). -/
def jsToLower (s : String) : String := String.mk (s.data.map Char.toLower)

/-- Model of JavaScript `String.prototype.trim`: drop leading and trailing
whitespace. -/
def jsTrim (s : String) : String :=
  String.mk ((s.data.dropWhile Char.isWhitespace).reverse.dropWhile Char.isWhitespace |>.reverse)

/-- One day in milliseconds, the unit used by date-fns `addDays` and
`differenceInDays`. -/
def dayMs : Nat := 86400000

/-- Model of date-fns `addDays` on an instant in milliseconds (calendar days,
DST-free model). -/
def addDays (t : Nat) (n : Nat) : Nat := t + n * dayMs

/-- Model of date-fns `differenceInDays a b`: the number of *full* days between the
two instants, truncated toward zero (signed). -/
def differenceInDays (a b : Nat) : Int :=
  if b ≤ a then ((a - b) / dayMs : Nat) else -(((b - a) / dayMs : Nat) : Int)

/-- Model of `Book` from `src/unnamed/part_000` (`src/types.ts`).  Optional fields
(`barcode`, `collection`) are `Option`s. -/
structure Book where
  id : String
  title : String
  author : String
  year : Int
  publisher : String
  isbn : String
  barcode : Option String
  editionYear : Int
  location : String
  collection : Option String
deriving Repr, DecidableEq

/-- Model of `Student` from `src/unnamed/part_000`.  The source field `class` is a
Lean keyword and is rendered `className`. -/
structure Student where
  id : String
  name : String
  className : String
deriving Repr, DecidableEq

/-- Model of `Loan` from `src/unnamed/part_000`.  `loanDate`/`dueDate` are instants
in milliseconds; `returnDate` is nullable. -/
structure Loan where
  id : String
  studentName : String
  studentClass : String
  bookId : String
  bookTitle : String
  loanDate : Nat
  dueDate : Nat
  returnDate : Option Nat
deriving Repr, DecidableEq

/-- Model of `LibraryData` from `src/unnamed/part_000`: the full in-memory
snapshot. -/
structure LibraryData where
  books : List Book
  students : List Student
  loans : List Loan
deriving Repr, DecidableEq

/-! Section: loan status classification (`LoanStatusBadge`, App.tsx 1170-1198) -/

/-- The three derived loan states rendered by `LoanStatusBadge`;
`overdue` carries the `differenceInDays(new Date(), dueDate)` figure shown
as "dias de atraso". -/
inductive LoanStatus where
  | returned : LoanStatus
  | overdue (late : Nat) : LoanStatus
  | opened : LoanStatus
deriving Repr, DecidableEq

/-- Status computed by `LoanStatusBadge` (App.tsx 1170-1198): returned if `returnDate` is
set, else overdue iff `isAfter(now, dueDate)` (strict), else open.  The
overdue-days figure is `differenceInDays(now, dueDate)`, which for
`now > dueDate` is `(now - dueDate) / dayMs` truncated. -/
def loanStatus (l : Loan) (now : Nat) : LoanStatus :=
  match l.returnDate with
  | some _ => .returned
  | none =>
      if l.dueDate < now then .overdue ((now - l.dueDate) / dayMs) else .opened

/-! Section: due-soon notifications (App.tsx 149-165) -/

/-- The filter of the due-date notification effect (App.tsx 153-157):
`differenceInDays(dueDate, today) ∈ [0, 2]` where `today` is
`startOfDay(new Date())`. -/
def isDueSoon (todayStart : Nat) (l : Loan) : Bool :=
  decide (0 ≤ differenceInDays l.dueDate todayStart)
    && decide (differenceInDays l.dueDate todayStart ≤ 2)

/-- The due-date notification list (App.tsx 149-165): active loans
(`!l.returnDate`) passing `isDueSoon`; the rendered message per loan is
presentation and is not modelled. -/
def dueNotifications (loans : List Loan) (todayStart : Nat) : List Loan :=
  (loans.filter (fun l => l.returnDate.isNone)).filter (isDueSoon todayStart)

/-! Section: loan lifecycle engine, create path (`handleSaveLoan`, App.tsx 252-290) -/

/-- Outcome of one `handleSaveLoan` invocation: the silent early return on
the validation check, the catch branch (error toast) on a failed remote
write, or a completed save followed by `loadAllData`. -/
inductive SaveLoanOutcome where
  | validationFailed : SaveLoanOutcome
  | persistenceError : SaveLoanOutcome
  | saved : SaveLoanOutcome
deriving Repr, DecidableEq

/-- Effects injected into the create-loan flow: the clock (`new Date()`),
the server-assigned identities of freshly inserted rows, and failure flags
for the two remote inserts. -/
structure CreateLoanEffects where
  now : Nat
  newStudentId : String
  newLoanId : String
  studentInsertFails : Bool
  loanInsertFails : Bool
deriving Repr, DecidableEq

/-- Result of the create-loan flow: the outcome, the remote store
afterwards, and the local in-memory snapshot afterwards (refreshed by
`loadAllData` only on success; row order of the reload is abstracted). -/
structure CreateLoanResult where
  outcome : SaveLoanOutcome
  store : LibraryData
  snapshot : LibraryData
deriving Repr, DecidableEq

/-- The case-insensitive student match of `handleSaveLoan`
(App.tsx 262-264): `name` and `class` both equal after `toLowerCase`,
against the already-trimmed inputs. -/
def studentMatches (studentName studentClass : String) (s : Student) : Bool :=
  jsToLower s.name == jsToLower studentName && jsToLower s.className == jsToLower studentClass

/-- Create branch of `handleSaveLoan` (App.tsx 252-290, `editingLoan`
null).  Reads the local snapshot, validates (`!book || !studentName ||
!studentClass` after trimming), find-or-creates the student
case-insensitively, inserts the loan with `loanDate = now`,
`dueDate = addDays(now, 7)`, `returnDate = null`, then reloads the
snapshot from the store.  A failed remote insert is caught, leaving the
local snapshot untouched. -/
def handleSaveLoanCreate (snapshot store : LibraryData)
    (bookIdInput studentNameInput studentClassInput : String)
    (fx : CreateLoanEffects) : CreateLoanResult :=
  let studentName := jsTrim studentNameInput
  let studentClass := jsTrim studentClassInput
  match snapshot.books.find? (fun b => b.id == bookIdInput) with
  | none => ⟨.validationFailed, store, snapshot⟩
  | some book =>
      if studentName == "" || studentClass == "" then
        ⟨.validationFailed, store, snapshot⟩
      else
        match snapshot.students.find? (studentMatches studentName studentClass) with
        | some student =>
            if fx.loanInsertFails then ⟨.persistenceError, store, snapshot⟩
            else
              let loan : Loan :=
                ⟨fx.newLoanId, student.name, student.className, book.id, book.title,
                  fx.now, addDays fx.now 7, none⟩
              let store2 := { store with loans := store.loans ++ [loan] }
              ⟨.saved, store2, store2⟩
        | none =>
            if fx.studentInsertFails then ⟨.persistenceError, store, snapshot⟩
            else
              let student : Student := ⟨fx.newStudentId, studentName, studentClass⟩
              let store1 := { store with students := store.students ++ [student] }
              if fx.loanInsertFails then ⟨.persistenceError, store1, snapshot⟩
              else
                let loan : Loan :=
                  ⟨fx.newLoanId, student.name, student.className, book.id, book.title,
                    fx.now, addDays fx.now 7, none⟩
                let store2 := { store1 with loans := store1.loans ++ [loan] }
                ⟨.saved, store2, store2⟩

/-! Section: loan updates through `loanToRow` (supabaseService.ts 91-94, 153-163)

`updateLoan(id, partial)` sends `loanToRow(partial)` as the update body.
Keys whose value is `undefined` are dropped by JSON serialisation before
the request, while `null` values are kept and set the column to NULL.
`book_id` and `return_date` are coalesced with `?? null` in `loanToRow`,
so they are *always* present in the body. -/

/-- A `Partial<Loan>` argument to `updateLoan`: `none` means the key is
absent from the partial.  `returnDate` distinguishes an absent key
(`none`) from an explicit null (`some none`). -/
structure LoanPatch where
  studentName : Option String := none
  studentClass : Option String := none
  bookId : Option String := none
  bookTitle : Option String := none
  loanDate : Option Nat := none
  dueDate : Option Nat := none
  returnDate : Option (Option Nat) := none
deriving Repr, DecidableEq

/-- The update body produced by `loanToRow` after JSON serialisation:
`none` = key dropped (`undefined`), otherwise the column value
(`Option`-valued for the nullable columns). -/
structure LoanRowUpdate where
  student_name : Option String
  student_class : Option String
  book_id : Option (Option String)
  book_title : Option String
  loan_date : Option Nat
  due_date : Option Nat
  return_date : Option (Option Nat)
deriving Repr, DecidableEq

/-- Model of `loanToRow` (supabaseService.ts 153-163) applied to a partial loan:
plain fields pass through (`undefined` when absent), while
`book_id: loan.bookId ?? null` and `return_date: loan.returnDate ?? null`
turn an absent key into an explicit NULL write. -/
def loanToRow (p : LoanPatch) : LoanRowUpdate :=
  { student_name := p.studentName
    student_class := p.studentClass
    book_id := some p.bookId
    book_title := p.bookTitle
    loan_date := p.loanDate
    due_date := p.dueDate
    return_date := some p.returnDate.join }

/-- A stored row of the `loans` table; `book_id` and `return_date` are
nullable columns. -/
structure LoanRecord where
  id : String
  student_name : String
  student_class : String
  book_id : Option String
  book_title : String
  loan_date : Nat
  due_date : Nat
  return_date : Option Nat
deriving Repr, DecidableEq

/-- The effect of `supabase.update(row).eq('id', ...)` on the matched row:
columns present in the body are overwritten (NULL included), absent
columns keep their stored value. -/
def updateLoanRecord (u : LoanRowUpdate) (r : LoanRecord) : LoanRecord :=
  { id := r.id
    student_name := u.student_name.getD r.student_name
    student_class := u.student_class.getD r.student_class
    book_id := u.book_id.getD r.book_id
    book_title := u.book_title.getD r.book_title
    loan_date := u.loan_date.getD r.loan_date
    due_date := u.due_date.getD r.due_date
    return_date := u.return_date.getD r.return_date }

/-- The partial sent by the edit branch of `handleSaveLoan`
(App.tsx 269-274): resolved student name/class and denormalized book
fields only. -/
def editLoanPatch (studentName studentClass bookId bookTitle : String) : LoanPatch :=
  { studentName := some studentName
    studentClass := some studentClass
    bookId := some bookId
    bookTitle := some bookTitle }

/-- The partial sent by `handleReturnBook` (App.tsx 292-298):
`{ returnDate: new Date().toISOString() }`. -/
def returnLoanPatch (now : Nat) : LoanPatch := { returnDate := some (some now) }

/-! Section: JSON documents and the backup codec -/

/-- A parsed JSON value (`JSON.parse` never yields `undefined`). -/
inductive Json where
  | null : Json
  | bool : Bool → Json
  | num : Int → Json
  | str : String → Json
  | arr : List Json → Json
  | obj : List (String × Json) → Json
deriving Repr

/-- JavaScript truthiness of a parsed JSON value: `null`, `false`, `0`
and `""` are falsy; every object and array (empty included) is truthy. -/
def jsTruthy : Json → Bool
  | .null => false
  | .bool b => b
  | .num n => n != 0
  | .str s => s != ""
  | .arr _ => true
  | .obj _ => true

/-- JS property access `j.k` on a non-null parsed value: a field of an
object, `undefined` (`none`) otherwise.  Access on `null` throws and is
handled explicitly by the callers below. -/
def getProp (j : Json) (k : String) : Option Json :=
  match j with
  | .obj fields => fields.lookup k
  | _ => none

/-- JS default `x || []` on a possibly-`undefined` value (used for the
`students`/collection defaults). -/
def orEmptyArr (v : Option Json) : Json :=
  match v with
  | some x => if jsTruthy x then x else .arr []
  | none => .arr []

/-- Model of `storageService.importBackup` (`src/unnamed/part_001` 38-60) applied
to the parse result of the file text (`none` = `JSON.parse` threw).  The
try block also catches the property-access throw on a `null` document.
On `data.books && data.loans` (truthiness, no array check) it resolves
`{books, loans, students: data.students || []}`; otherwise it rejects,
and the caller replaces the snapshot only on success. -/
def importBackup (parsed : Option Json) : Except String (Json × Json × Json) :=
  match parsed with
  | none => .error "Erro ao ler arquivo de backup"
  | some .null => .error "Erro ao ler arquivo de backup"
  | some j =>
      match getProp j "books", getProp j "loans" with
      | some bks, some lns =>
          if jsTruthy bks && jsTruthy lns then
            .ok (bks, lns, orEmptyArr (getProp j "students"))
          else .error "Formato de backup inválido"
      | _, _ => .error "Formato de backup inválido"

/-- Model of `storageService.loadData` (`src/unnamed/part_001` 10-25) applied to
the stored value: outer `none` = key absent, inner `none` = `JSON.parse`
threw.  The catch also swallows the property-access throw on a stored
`null`, falling through to the empty snapshot.  Result components are the
raw `books`/`loans`/`students` values, each defaulted with `|| []`. -/
def loadData (stored : Option (Option Json)) : Json × Json × Json :=
  match stored with
  | none => (.arr [], .arr [], .arr [])
  | some none => (.arr [], .arr [], .arr [])
  | some (some .null) => (.arr [], .arr [], .arr [])
  | some (some j) =>
      (orEmptyArr (getProp j "books"), orEmptyArr (getProp j "loans"),
        orEmptyArr (getProp j "students"))

/-! Section: export (`handleExport`, App.tsx 314-323)

`JSON.stringify(data, null, 2)` serialises the snapshot; text
serialisation and re-parsing is a bijection on JSON values and is
modelled as the identity on `Json`.  `undefined`-valued optional fields
(`barcode`, `collection`) are dropped by `JSON.stringify`; `null`-valued
`returnDate` is kept. -/

/-- The (key, value) list contributed by an optional string field:
omitted when `undefined`. -/
def optStrField (k : String) (v : Option String) : List (String × Json) :=
  match v with
  | some s => [(k, .str s)]
  | none => []

/-- JSON image of a `Book` under `JSON.stringify` (field order of the
rows produced by `rowToBook`, supabaseService.ts 103-116). -/
def encodeBook (b : Book) : Json :=
  .obj ([("id", .str b.id), ("title", .str b.title), ("author", .str b.author),
      ("year", .num b.year), ("publisher", .str b.publisher), ("isbn", .str b.isbn)]
    ++ optStrField "barcode" b.barcode
    ++ [("editionYear", .num b.editionYear), ("location", .str b.location)]
    ++ optStrField "collection" b.collection)

/-- JSON image of a `Student` under `JSON.stringify` (field order of
`rowToStudent`, supabaseService.ts 132-138). -/
def encodeStudent (s : Student) : Json :=
  .obj [("id", .str s.id), ("name", .str s.name), ("class", .str s.className)]

/-- JSON image of a `Loan` under `JSON.stringify` (field order of
`rowToLoan`, supabaseService.ts 140-151); a null `returnDate` is kept as
JSON `null`. -/
def encodeLoan (l : Loan) : Json :=
  .obj [("id", .str l.id), ("studentName", .str l.studentName),
    ("studentClass", .str l.studentClass), ("bookId", .str l.bookId),
    ("bookTitle", .str l.bookTitle), ("loanDate", .num l.loanDate),
    ("dueDate", .num l.dueDate),
    ("returnDate", match l.returnDate with | some t => .num t | none => .null)]

/-- The exported backup document (`handleExport`, App.tsx 314-323): the
`data` state object `{books, students, loans}` serialised. -/
def encodeLD (d : LibraryData) : Json :=
  .obj [("books", .arr (d.books.map encodeBook)),
    ("students", .arr (d.students.map encodeStudent)),
    ("loans", .arr (d.loans.map encodeLoan))]

/-! Section: typed reading of a backup document

`handleImport` (App.tsx 325-338) casts the parse result to `LibraryData`
without validation; the decoders below give that cast a meaning on
well-formed documents (the shapes produced by `encode*`), so round-trip
identity can be stated on typed snapshots. -/

/-- Reads back the JSON image of a `Book` (inverse of `encodeBook` on its
range). -/
def decodeBook : Json → Option Book
  | .obj [("id", .str i), ("title", .str t), ("author", .str a), ("year", .num y),
      ("publisher", .str p), ("isbn", .str n), ("barcode", .str bc),
      ("editionYear", .num ey), ("location", .str lo), ("collection", .str c)] =>
      some ⟨i, t, a, y, p, n, some bc, ey, lo, some c⟩
  | .obj [("id", .str i), ("title", .str t), ("author", .str a), ("year", .num y),
      ("publisher", .str p), ("isbn", .str n), ("barcode", .str bc),
      ("editionYear", .num ey), ("location", .str lo)] =>
      some ⟨i, t, a, y, p, n, some bc, ey, lo, none⟩
  | .obj [("id", .str i), ("title", .str t), ("author", .str a), ("year", .num y),
      ("publisher", .str p), ("isbn", .str n),
      ("editionYear", .num ey), ("location", .str lo), ("collection", .str c)] =>
      some ⟨i, t, a, y, p, n, none, ey, lo, some c⟩
  | .obj [("id", .str i), ("title", .str t), ("author", .str a), ("year", .num y),
      ("publisher", .str p), ("isbn", .str n),
      ("editionYear", .num ey), ("location", .str lo)] =>
      some ⟨i, t, a, y, p, n, none, ey, lo, none⟩
  | _ => none

/-- Reads back the JSON image of a `Student`. -/
def decodeStudent : Json → Option Student
  | .obj [("id", .str i), ("name", .str n), ("class", .str c)] => some ⟨i, n, c⟩
  | _ => none

/-- Reads back the JSON image of a `Loan`. -/
def decodeLoan : Json → Option Loan
  | .obj [("id", .str i), ("studentName", .str sn), ("studentClass", .str sc),
      ("bookId", .str bi), ("bookTitle", .str bt), ("loanDate", .num ld),
      ("dueDate", .num dd), ("returnDate", .num rd)] =>
      some ⟨i, sn, sc, bi, bt, ld.toNat, dd.toNat, some rd.toNat⟩
  | .obj [("id", .str i), ("studentName", .str sn), ("studentClass", .str sc),
      ("bookId", .str bi), ("bookTitle", .str bt), ("loanDate", .num ld),
      ("dueDate", .num dd), ("returnDate", .null)] =>
      some ⟨i, sn, sc, bi, bt, ld.toNat, dd.toNat, none⟩
  | _ => none

/-- Decodes every element of a JSON array, failing if any element
fails. -/
def decodeList {α : Type} (f : Json → Option α) : List Json → Option (List α)
  | [] => some []
  | x :: xs =>
      match f x, decodeList f xs with
      | some a, some as => some (a :: as)
      | _, _ => none

/-- Reads back an exported backup document as a typed snapshot. -/
def decodeLD : Json → Option LibraryData
  | .obj [("books", .arr bs), ("students", .arr ss), ("loans", .arr ls)] =>
      match decodeList decodeBook bs, decodeList decodeStudent ss,
          decodeList decodeLoan ls with
      | some b, some s, some l => some ⟨b, s, l⟩
      | _, _, _ => none
  | _ => none

/-! Section: theorems -/

/-- C2: for every loan and every now, a non-null `returnDate` forces
status Returned; otherwise status is Overdue exactly when `now` is
strictly after `dueDate`, with `daysOverdue` the truncated (floor, as the
difference is nonnegative) number of days, else Open; in particular the
boundary `now = dueDate` is Open. -/
theorem c2_loan_status (l : Loan) (now : Nat) :
    (∀ t, l.returnDate = some t → loanStatus l now = .returned)
    ∧ (l.returnDate = none →
        (l.dueDate < now → loanStatus l now = .overdue ((now - l.dueDate) / dayMs))
        ∧ (¬ l.dueDate < now → loanStatus l now = .opened)
        ∧ (now = l.dueDate → loanStatus l now = .opened)) := by
  refine ⟨fun t ht => by simp [loanStatus, ht], fun h0 => ⟨?_, ?_, ?_⟩⟩
  · intro h; simp [loanStatus, h0, h]
  · intro h; simp [loanStatus, h0, h]
  · intro h; subst h; simp [loanStatus, h0]

/-- Witness for C2: a loan inspected exactly at its due date is Open. -/
theorem c2_loan_status_witness :
    loanStatus ⟨"L1", "Ana", "9A", "B1", "Dune", 0, 7 * dayMs, none⟩ (7 * dayMs)
      = LoanStatus.opened :=
  (c2_loan_status ⟨"L1", "Ana", "9A", "B1", "Dune", 0, 7 * dayMs, none⟩ (7 * dayMs)).2
    rfl |>.2.2 rfl

/-- Arithmetic of the notification filter: `differenceInDays(dueDate,
todayStart) ∈ [0, 2]` holds exactly on the half-open-by-truncation window
`todayStart - 1 day < dueDate < todayStart + 3 days`. -/
theorem dueSoonWindow (t d : Nat) :
    (0 ≤ differenceInDays d t ∧ differenceInDays d t ≤ 2) ↔
      (t < d + dayMs ∧ d < t + 3 * dayMs) := by
  have hday : 0 < dayMs := by norm_num [dayMs]
  unfold differenceInDays
  by_cases h : t ≤ d
  · rw [if_pos h]
    have hdiv : (d - t) / dayMs < 3 ↔ d - t < 3 * dayMs := Nat.div_lt_iff_lt_mul hday
    constructor
    · rintro ⟨-, h2⟩
      have h2a : (d - t) / dayMs ≤ 2 := by exact_mod_cast h2
      have := hdiv.mp (by omega)
      omega
    · rintro ⟨-, h2⟩
      have h3 : (d - t) / dayMs < 3 := hdiv.mpr (by omega)
      refine ⟨Int.ofNat_nonneg _, ?_⟩
      exact_mod_cast Nat.lt_succ_iff.mp h3
  · rw [if_neg h]
    push_neg at h
    have hzero : (t - d) / dayMs = 0 ↔ t - d < dayMs := Nat.div_eq_zero_iff hday
    constructor
    · rintro ⟨h1, -⟩
      have h1a : (t - d) / dayMs = 0 := by
        by_contra hne
        have hp : 0 < (t - d) / dayMs := Nat.pos_of_ne_zero hne
        have hp2 : (0 : Int) < (((t - d) / dayMs : Nat) : Int) := by exact_mod_cast hp
        omega
      have := hzero.mp h1a
      omega
    · rintro ⟨h1, -⟩
      have h1a : (t - d) / dayMs = 0 := hzero.mpr (by omega)
      rw [h1a]
      norm_num

/-- C7 (amended): the due-soon notification list contains exactly the
unreturned loans whose `dueDate` D satisfies
`trunc((D - today_start) / day) ∈ [0, 2]`, i.e.
`today_start - 1 day < D < today_start + 3 days` (both strict) — not the
closed interval `[today_start, today_start + 2 days]` the original claim
states. -/
theorem c7_due_soon_window (loans : List Loan) (todayStart : Nat) (l : Loan) :
    l ∈ dueNotifications loans todayStart ↔
      (l ∈ loans ∧ l.returnDate = none ∧ todayStart < l.dueDate + dayMs
        ∧ l.dueDate < todayStart + 3 * dayMs) := by
  unfold dueNotifications
  simp only [List.mem_filter, isDueSoon, Bool.and_eq_true, decide_eq_true_eq,
    Option.isNone_iff_eq_none]
  constructor
  · rintro ⟨⟨hmem, hret⟩, hd1, hd2⟩
    have hw := (dueSoonWindow todayStart l.dueDate).mp ⟨hd1, hd2⟩
    exact ⟨hmem, hret, hw.1, hw.2⟩
  · rintro ⟨hmem, hret, h1, h2⟩
    have hw := (dueSoonWindow todayStart l.dueDate).mpr ⟨h1, h2⟩
    exact ⟨⟨hmem, hret⟩, hw.1, hw.2⟩

/-- Unreturned loan due 2024-06-12T23:00Z (loaned 7 days before), the
example from the specification. -/
def dueSoonLoan : Loan :=
  ⟨"L1", "Ana Silva", "9A", "B1", "Dune", 1717628400000, 1718233200000, none⟩

/-- Counterexample to C7 as stated: with today = 2024-06-10T00:00Z, the
loan due 2024-06-12T23:00Z is in the notification list (as the spec's own
example demands) although its due date is outside the claimed closed
interval `[today_start, today_start + 2 days]`. -/
theorem c7_counterexample :
    dueNotifications [dueSoonLoan] 1717977600000 = [dueSoonLoan]
    ∧ ¬ dueSoonLoan.dueDate ≤ 1717977600000 + 2 * dayMs := by
  constructor
  · decide
  · decide

/-- Witness for C7 (amended) at the spec's own example input. -/
theorem c7_due_soon_window_witness :
    dueSoonLoan ∈ dueNotifications [dueSoonLoan] 1717977600000 :=
  (c7_due_soon_window [dueSoonLoan] 1717977600000 dueSoonLoan).mpr
    ⟨by simp, rfl, by decide, by decide⟩

/-- Sample catalog book used by concrete evaluations. -/
def sampleBook : Book :=
  ⟨"B1", "Dune", "Frank Herbert", 1965, "Chilton", "9780441013593", none, 1965, "A1", none⟩

/-- Snapshot with one book and no students or loans. -/
def sampleSnap : LibraryData := ⟨[sampleBook], [], []⟩

/-- Stored row of a loan returned on 2024-01-10 (loaned 2024-01-01, due
2024-01-08). -/
def returnedLoanRecord : LoanRecord :=
  ⟨"L1", "Ana Silva", "9A", some "B1", "Dune", 1704067200000, 1704672000000,
    some 1704844800000⟩

/-- C1 at the failing input (code bug): creation does set
`dueDate = loanDate + 7 days`, and editing leaves `loan_date`/`due_date`
unchanged, but the edit body produced by `loanToRow` also writes
`return_date = null` (via `loan.returnDate ?? null` on the partial), so
more than the identity/denormalized fields change when a returned loan is
edited. -/
theorem c1_due_date_fixed_but_edit_clears_return :
    (handleSaveLoanCreate sampleSnap sampleSnap "B1" "Ana Silva" "9A"
        ⟨1704067200000, "S1", "L1", false, false⟩).store.loans
      = [⟨"L1", "Ana Silva", "9A", "B1", "Dune", 1704067200000,
          1704067200000 + 7 * dayMs, none⟩]
    ∧ (updateLoanRecord (loanToRow (editLoanPatch "Ana Silva" "9A" "B1" "Dune"))
        returnedLoanRecord).loan_date = returnedLoanRecord.loan_date
    ∧ (updateLoanRecord (loanToRow (editLoanPatch "Ana Silva" "9A" "B1" "Dune"))
        returnedLoanRecord).due_date = returnedLoanRecord.due_date
    ∧ (updateLoanRecord (loanToRow (editLoanPatch "Ana Silva" "9A" "B1" "Dune"))
        returnedLoanRecord).return_date = none
    ∧ returnedLoanRecord.return_date = some 1704844800000 := by
  refine ⟨by decide, rfl, rfl, rfl, rfl⟩

/-- Stored row of a loan returned on 2024-02-15 (loaned 2024-02-01, due
2024-02-08). -/
def returnedLoanRecord2 : LoanRecord :=
  ⟨"L2", "Bruno Costa", "7B", some "B3", "Iracema", 1706745600000, 1707350400000,
    some 1707955200000⟩

/-- C3 at the failing input (code bug): the edit-loan update body always
contains `return_date: null` (from `loanToRow`'s `?? null` coalescing of
the absent partial field), so editing a returned loan clears its
`returnDate` — the transition is not one-way.  The return flow itself
does set `return_date` to the given instant. -/
theorem c3_edit_unreturns_loan :
    (updateLoanRecord (loanToRow (editLoanPatch "Bruno Costa" "7B" "B3" "Iracema"))
        returnedLoanRecord2).return_date = none
    ∧ returnedLoanRecord2.return_date = some 1707955200000
    ∧ (updateLoanRecord (loanToRow (returnLoanPatch 1707955200000))
        { returnedLoanRecord2 with return_date := none }).return_date
      = some 1707955200000 := by
  refine ⟨rfl, rfl, rfl⟩

/-- C4: with a resolvable book and nonempty trimmed names, if some
existing student matches case-insensitively, the student roster is
untouched and the loan (when its insert succeeds) carries that student's
canonical-cased name and class; if no student matches and the student
insert succeeds, exactly the one new student record is appended, with the
name and class verbatim as typed after trimming. -/
theorem c4_student_resolution
    (snapshot store : LibraryData) (bookIdInput nameIn classIn : String)
    (fx : CreateLoanEffects) (book : Book)
    (hbook : snapshot.books.find? (fun b => b.id == bookIdInput) = some book)
    (hname : jsTrim nameIn ≠ "") (hclass : jsTrim classIn ≠ "") :
    (∀ s, snapshot.students.find? (studentMatches (jsTrim nameIn) (jsTrim classIn))
        = some s →
      (handleSaveLoanCreate snapshot store bookIdInput nameIn classIn fx).store.students
          = store.students
      ∧ (fx.loanInsertFails = false →
          (handleSaveLoanCreate snapshot store bookIdInput nameIn classIn fx).store.loans
            = store.loans ++ [⟨fx.newLoanId, s.name, s.className, book.id, book.title,
                fx.now, addDays fx.now 7, none⟩]))
    ∧ (snapshot.students.find? (studentMatches (jsTrim nameIn) (jsTrim classIn)) = none →
        fx.studentInsertFails = false →
        (handleSaveLoanCreate snapshot store bookIdInput nameIn classIn fx).store.students
          = store.students ++ [⟨fx.newStudentId, jsTrim nameIn, jsTrim classIn⟩]) := by
  have hcond : (jsTrim nameIn == "" || jsTrim classIn == "") = false := by
    simp [hname, hclass]
  constructor
  · intro s hs
    simp only [handleSaveLoanCreate, hbook, hcond, Bool.false_eq_true, if_false, hs]
    constructor
    · cases hfl : fx.loanInsertFails <;> simp
    · intro hfl
      simp [hfl]
  · intro hs hsf
    simp only [handleSaveLoanCreate, hbook, hcond, Bool.false_eq_true, if_false, hs, hsf]
    cases hfl : fx.loanInsertFails <;> simp

/-- Snapshot with the sample book and one registered student. -/
def rosterSnap : LibraryData := ⟨[sampleBook], [⟨"S1", "Ana Silva", "9A"⟩], []⟩

/-- Witness for C4: creating a loan for " ana silva " / "9a" (matching
the registered "Ana Silva" / "9A" case-insensitively) adds no student. -/
theorem c4_student_resolution_witness :
    (handleSaveLoanCreate rosterSnap rosterSnap "B1" " ana silva " "9a"
        ⟨1704067200000, "S2", "L1", false, false⟩).store.students
      = rosterSnap.students :=
  ((c4_student_resolution rosterSnap rosterSnap "B1" " ana silva " "9a"
      ⟨1704067200000, "S2", "L1", false, false⟩ sampleBook (by decide) (by decide)
      (by decide)).1 ⟨"S1", "Ana Silva", "9A"⟩ (by decide)).1

/-- C5: the create-loan flow takes its silent validation exit exactly
when the book id does not resolve in the snapshot or either name field is
empty after trimming, and in that case neither the store nor the snapshot
changes (no write is attempted). -/
theorem c5_validation
    (snapshot store : LibraryData) (bookIdInput nameIn classIn : String)
    (fx : CreateLoanEffects) :
    ((handleSaveLoanCreate snapshot store bookIdInput nameIn classIn fx).outcome
        = SaveLoanOutcome.validationFailed
      ↔ (snapshot.books.find? (fun b => b.id == bookIdInput) = none
          ∨ jsTrim nameIn = "" ∨ jsTrim classIn = ""))
    ∧ ((handleSaveLoanCreate snapshot store bookIdInput nameIn classIn fx).outcome
        = SaveLoanOutcome.validationFailed →
      (handleSaveLoanCreate snapshot store bookIdInput nameIn classIn fx).store = store
      ∧ (handleSaveLoanCreate snapshot store bookIdInput nameIn classIn fx).snapshot
          = snapshot) := by
  rcases hbook : snapshot.books.find? (fun b => b.id == bookIdInput) with _ | book
  · simp [handleSaveLoanCreate, hbook]
  · by_cases hn : jsTrim nameIn = "" ∨ jsTrim classIn = ""
    · have hcond : (jsTrim nameIn == "" || jsTrim classIn == "") = true := by
        rcases hn with hn | hn <;> simp [hn]
      simp only [handleSaveLoanCreate, hbook, hcond, if_true]
      exact ⟨⟨fun _ => Or.inr hn, fun _ => by trivial⟩, fun _ => ⟨by trivial, by trivial⟩⟩
    · push_neg at hn
      have hcond : (jsTrim nameIn == "" || jsTrim classIn == "") = false := by
        simp [hn.1, hn.2]
      simp only [handleSaveLoanCreate, hbook, hcond, Bool.false_eq_true, if_false]
      rcases hst : snapshot.students.find?
          (studentMatches (jsTrim nameIn) (jsTrim classIn)) with _ | s
      · cases hsf : fx.studentInsertFails
        · cases hfl : fx.loanInsertFails <;> simp [hbook, hn.1, hn.2]
        · simp [hbook, hn.1, hn.2]
      · cases hfl : fx.loanInsertFails <;> simp [hbook, hn.1, hn.2]

/-- Witness for C5: an unknown book id makes the flow fail validation and
leave the store untouched. -/
theorem c5_validation_witness :
    (handleSaveLoanCreate ⟨[], [], []⟩ ⟨[], [], []⟩ "B9" "Ana" "9A"
        ⟨0, "S1", "L1", false, false⟩).outcome = SaveLoanOutcome.validationFailed
    ∧ (handleSaveLoanCreate ⟨[], [], []⟩ ⟨[], [], []⟩ "B9" "Ana" "9A"
        ⟨0, "S1", "L1", false, false⟩).store = ⟨[], [], []⟩ := by
  have h := c5_validation ⟨[], [], []⟩ ⟨[], [], []⟩ "B9" "Ana" "9A"
    ⟨0, "S1", "L1", false, false⟩
  have h1 := h.1.mpr (Or.inl (by decide))
  exact ⟨h1, (h.2 h1).1⟩

/-- Failure pattern for C6: the student insert succeeds, the loan insert
fails. -/
def c6fx : CreateLoanEffects := ⟨1704067200000, "S9", "L9", false, true⟩

/-- Counterexample to C6 as stated: when the implicit student insert
succeeds and the following loan insert fails, the action fails with a
persistence error, yet the student record created by the operation
remains in the store — the operation is not atomic. -/
theorem c6_counterexample :
    (handleSaveLoanCreate sampleSnap sampleSnap "B1" "Ana Silva" "9A" c6fx).outcome
        = SaveLoanOutcome.persistenceError
    ∧ (handleSaveLoanCreate sampleSnap sampleSnap "B1" "Ana Silva" "9A" c6fx).store.students
        = [⟨"S9", "Ana Silva", "9A"⟩]
    ∧ sampleSnap.students = [] := by
  refine ⟨by decide, by decide, rfl⟩

/-- C6 (amended): a create-loan action that fails with a persistence
error leaves the local snapshot in its prior state and writes no loan,
but the store's student roster may have gained the one implicitly created
student (when the student insert preceded the failing loan insert). -/
theorem c6_failure_partial_application
    (snapshot store : LibraryData) (bookIdInput nameIn classIn : String)
    (fx : CreateLoanEffects)
    (h : (handleSaveLoanCreate snapshot store bookIdInput nameIn classIn fx).outcome
        = SaveLoanOutcome.persistenceError) :
    (handleSaveLoanCreate snapshot store bookIdInput nameIn classIn fx).snapshot = snapshot
    ∧ (handleSaveLoanCreate snapshot store bookIdInput nameIn classIn fx).store.loans
        = store.loans
    ∧ ((handleSaveLoanCreate snapshot store bookIdInput nameIn classIn fx).store.students
          = store.students
      ∨ (handleSaveLoanCreate snapshot store bookIdInput nameIn classIn fx).store.students
          = store.students ++ [⟨fx.newStudentId, jsTrim nameIn, jsTrim classIn⟩]) := by
  rcases hbook : snapshot.books.find? (fun b => b.id == bookIdInput) with _ | book
  · simp [handleSaveLoanCreate, hbook] at h ⊢
  · by_cases hcond : (jsTrim nameIn == "" || jsTrim classIn == "") = true
    · simp [handleSaveLoanCreate, hbook, hcond] at h
    · rw [Bool.not_eq_true] at hcond
      rcases hst : snapshot.students.find?
          (studentMatches (jsTrim nameIn) (jsTrim classIn)) with _ | s
      · cases hsf : fx.studentInsertFails
        · cases hfl : fx.loanInsertFails
          · simp [handleSaveLoanCreate, hbook, hcond, hst, hsf, hfl] at h
          · simp [handleSaveLoanCreate, hbook, hcond, hst, hsf, hfl]
        · simp [handleSaveLoanCreate, hbook, hcond, hst, hsf]
      · cases hfl : fx.loanInsertFails
        · simp [handleSaveLoanCreate, hbook, hcond, hst, hfl] at h
        · simp [handleSaveLoanCreate, hbook, hcond, hst, hfl]

/-- Witness for C6 (amended) at the counterexample input: the local
snapshot survives the failed action unchanged. -/
theorem c6_failure_partial_application_witness :
    (handleSaveLoanCreate sampleSnap sampleSnap "B1" "Ana Silva" "9A" c6fx).snapshot
      = sampleSnap :=
  (c6_failure_partial_application sampleSnap sampleSnap "B1" "Ana Silva" "9A" c6fx
    (by decide)).1

/-- Reading back the JSON image of a book recovers it. -/
theorem decodeBook_encodeBook (b : Book) : decodeBook (encodeBook b) = some b := by
  rcases b with ⟨i, t, a, y, p, n, bc, ey, lo, c⟩
  rcases bc with _ | bc <;> rcases c with _ | c <;> rfl

/-- Reading back the JSON image of a student recovers it. -/
theorem decodeStudent_encodeStudent (s : Student) :
    decodeStudent (encodeStudent s) = some s := by
  rcases s with ⟨i, n, c⟩
  rfl

/-- Reading back the JSON image of a loan recovers it. -/
theorem decodeLoan_encodeLoan (l : Loan) : decodeLoan (encodeLoan l) = some l := by
  rcases l with ⟨i, sn, sc, bi, bt, ld, dd, rd⟩
  rcases rd with _ | rd <;> rfl

/-- Elementwise decoding inverts elementwise encoding. -/
theorem decodeList_encode {α : Type} (f : Json → Option α) (g : α → Json)
    (h : ∀ x, f (g x) = some x) : ∀ xs : List α, decodeList f (xs.map g) = some xs := by
  intro xs
  induction xs with
  | nil => rfl
  | cons x xs ih => simp [decodeList, h, ih]

/-- C8: export-then-import is the identity on snapshots.  The import of
an exported document succeeds and hands back exactly the exported
`books`/`loans`/`students` arrays, and reading the document back as typed
entities reproduces the original snapshot (same fields, same
identities). -/
theorem c8_roundtrip :
    (∀ d : LibraryData, importBackup (some (encodeLD d))
        = Except.ok (.arr (d.books.map encodeBook), .arr (d.loans.map encodeLoan),
            .arr (d.students.map encodeStudent)))
    ∧ (∀ d : LibraryData, decodeLD (encodeLD d) = some d) := by
  constructor
  · intro d
    rfl
  · intro d
    rcases d with ⟨bs, ss, ls⟩
    have h1 : decodeList decodeBook (bs.map encodeBook) = some bs :=
      decodeList_encode decodeBook encodeBook decodeBook_encodeBook bs
    have h2 : decodeList decodeStudent (ss.map encodeStudent) = some ss :=
      decodeList_encode decodeStudent encodeStudent decodeStudent_encodeStudent ss
    have h3 : decodeList decodeLoan (ls.map encodeLoan) = some ls :=
      decodeList_encode decodeLoan encodeLoan decodeLoan_encodeLoan ls
    simp [decodeLD, encodeLD, h1, h2, h3]

/-- Witness for C8 on a one-of-each snapshot. -/
theorem c8_roundtrip_witness :
    decodeLD (encodeLD ⟨[sampleBook], [⟨"S1", "Ana Silva", "9A"⟩],
        [⟨"L1", "Ana Silva", "9A", "B1", "Dune", 1704067200000, 1704672000000, none⟩]⟩)
      = some ⟨[sampleBook], [⟨"S1", "Ana Silva", "9A"⟩],
        [⟨"L1", "Ana Silva", "9A", "B1", "Dune", 1704067200000, 1704672000000, none⟩]⟩ :=
  c8_roundtrip.2 ⟨[sampleBook], [⟨"S1", "Ana Silva", "9A"⟩],
    [⟨"L1", "Ana Silva", "9A", "B1", "Dune", 1704067200000, 1704672000000, none⟩]⟩

/-- Unfolding of `importBackup` on a non-null parsed document. -/
theorem importBackup_some_eq (j : Json) (h : j ≠ .null) :
    importBackup (some j) =
      match getProp j "books", getProp j "loans" with
      | some bks, some lns =>
          if jsTruthy bks && jsTruthy lns then
            .ok (bks, lns, orEmptyArr (getProp j "students"))
          else .error "Formato de backup inválido"
      | _, _ => .error "Formato de backup inválido" := by
  cases j
  case null => exact absurd rfl h
  all_goals rfl

/-- Counterexample to C9 as stated: a document whose `books` member is
the string "x" and whose `loans` member is the number 1 — neither is
array-typed — is accepted by `importBackup`, which resolves with those
very values. -/
theorem c9_counterexample :
    importBackup (some (.obj [("books", .str "x"), ("loans", .num 1)]))
        = Except.ok (.str "x", .num 1, .arr [])
    ∧ ∀ xs, (Json.str "x") ≠ Json.arr xs := by
  refine ⟨rfl, fun xs h => Json.noConfusion h⟩

/-- C9 (amended): import succeeds exactly when the document parses to a
non-null value whose `books` and `loans` members are present and
JS-truthy — array-typedness is not checked; on success the resolved
snapshot is those members verbatim with `students` defaulted by `|| []`,
and a parse failure (or null document) is reported as an error, the
caller replacing the snapshot only on success. -/
theorem c9_import_validation :
    (importBackup none = .error "Erro ao ler arquivo de backup")
    ∧ (importBackup (some .null) = .error "Erro ao ler arquivo de backup")
    ∧ ∀ j : Json,
        ((∃ res, importBackup (some j) = .ok res) ↔
          (j ≠ .null ∧ ∃ bks lns, getProp j "books" = some bks
            ∧ getProp j "loans" = some lns ∧ jsTruthy bks = true ∧ jsTruthy lns = true))
        ∧ (∀ bks lns ss, importBackup (some j) = .ok (bks, lns, ss) →
            getProp j "books" = some bks ∧ getProp j "loans" = some lns
            ∧ ss = orEmptyArr (getProp j "students")) := by
  refine ⟨rfl, rfl, ?_⟩
  intro j
  by_cases hj : j = Json.null
  · subst hj
    refine ⟨⟨fun ⟨res, h⟩ => by simp [importBackup] at h,
      fun h => absurd rfl h.1⟩, fun bks lns ss h => by simp [importBackup] at h⟩
  · rw [importBackup_some_eq j hj]
    rcases hb : getProp j "books" with _ | bks
    · refine ⟨⟨fun ⟨res, h⟩ => by simp at h, ?_⟩, fun bks lns ss h => by simp at h⟩
      rintro ⟨-, bks, lns, hb2, -⟩
      exact Option.noConfusion hb2
    · rcases hl : getProp j "loans" with _ | lns
      · refine ⟨⟨fun ⟨res, h⟩ => by simp at h, ?_⟩, fun bks2 lns2 ss h => by simp at h⟩
        rintro ⟨-, bks2, lns2, -, hl2, -⟩
        exact Option.noConfusion hl2
      · by_cases ht : (jsTruthy bks && jsTruthy lns) = true
        · have htt := ht
          rw [Bool.and_eq_true] at htt
          refine ⟨⟨fun _ => ⟨hj, bks, lns, rfl, rfl, htt.1, htt.2⟩, fun _ => ?_⟩, ?_⟩
          · exact ⟨(bks, lns, orEmptyArr (getProp j "students")), by simp [ht]⟩
          · intro bks2 lns2 ss h
            simp [ht] at h
            exact ⟨congrArg some h.1, congrArg some h.2.1, h.2.2.symm⟩
        · refine ⟨⟨fun ⟨res, h⟩ => by simp [ht] at h, ?_⟩,
            fun bks2 lns2 ss h => by simp [ht] at h⟩
          rintro ⟨-, bks2, lns2, hb2, hl2, h1, h2⟩
          obtain rfl := Option.some.inj hb2
          obtain rfl := Option.some.inj hl2
          rw [Bool.and_eq_true] at ht
          push_neg at ht
          exact absurd h2 (ht h1)

/-- Witness for C9 (amended): a well-formed document is accepted. -/
theorem c9_import_validation_witness :
    ∃ res, importBackup (some (Json.obj [("books", Json.arr []),
        ("loans", Json.arr []), ("students", Json.arr [])])) = Except.ok res :=
  ((c9_import_validation.2.2 (Json.obj [("books", Json.arr []),
      ("loans", Json.arr []), ("students", Json.arr [])])).1).mpr
    ⟨fun h => Json.noConfusion h, Json.arr [], Json.arr [], rfl, rfl, rfl, rfl⟩

/-- C10: `loadData` is total — an absent key or a parse failure (the
catch also swallows the property-access throw on a stored `null`) yields
the fully empty snapshot, and a stored object whose collection fields are
each either absent or an array yields a well-formed snapshot keeping the
present arrays verbatim and substituting the empty array for each missing
one. -/
theorem c10_loadData_total :
    (loadData none = (.arr [], .arr [], .arr []))
    ∧ (loadData (some none) = (.arr [], .arr [], .arr []))
    ∧ (loadData (some (some .null)) = (.arr [], .arr [], .arr []))
    ∧ ∀ fields : List (String × Json),
        (fields.lookup "books" = none ∨ ∃ xs, fields.lookup "books" = some (.arr xs)) →
        (fields.lookup "loans" = none ∨ ∃ xs, fields.lookup "loans" = some (.arr xs)) →
        (fields.lookup "students" = none ∨ ∃ xs, fields.lookup "students" = some (.arr xs)) →
        ∃ bs ls ss,
          loadData (some (some (.obj fields))) = (.arr bs, .arr ls, .arr ss)
          ∧ (fields.lookup "books").getD (.arr []) = .arr bs
          ∧ (fields.lookup "loans").getD (.arr []) = .arr ls
          ∧ (fields.lookup "students").getD (.arr []) = .arr ss := by
  refine ⟨rfl, rfl, rfl, ?_⟩
  intro fields hb hl hs
  simp only [loadData, getProp]
  rcases hb with hb | ⟨xs, hb⟩ <;> rcases hl with hl | ⟨ys, hl⟩ <;>
      rcases hs with hs | ⟨zs, hs⟩ <;>
    rw [hb, hl, hs] <;>
    exact ⟨_, _, _, rfl, rfl, rfl, rfl⟩

/-- Witness for C10: a stored object holding only a `books` array is read
back with that array and empty defaults for the other collections. -/
theorem c10_loadData_total_witness :
    ∃ bs ls ss,
      loadData (some (some (.obj [("books", Json.arr [Json.num 1])])))
          = (Json.arr bs, Json.arr ls, Json.arr ss)
      ∧ (List.lookup "books" [("books", Json.arr [Json.num 1])]).getD (Json.arr [])
          = Json.arr bs
      ∧ (List.lookup "loans" [("books", Json.arr [Json.num 1])]).getD (Json.arr [])
          = Json.arr ls
      ∧ (List.lookup "students" [("books", Json.arr [Json.num 1])]).getD (Json.arr [])
          = Json.arr ss :=
  c10_loadData_total.2.2.2 [("books", Json.arr [Json.num 1])]
    (Or.inr ⟨[Json.num 1], rfl⟩) (Or.inl rfl) (Or.inl rfl)
